import Mathlib

/-!
Verification of the AES67-Router protocol core (SAP codec, RTP codec,
SDP extraction, stream registry, jitter buffer) against its specification.

The JavaScript source is shallowly embedded: byte buffers are `List Nat`
(every byte below 256 where it matters), JS numbers are `Nat`/`Int`/`Rat`
with overflow and truncation made explicit, stateful classes become
explicit state records, and functions that drop malformed input return
`Option`.
-/

set_option maxRecDepth 4096

/-- An IPv4 address as four octets. The source carries it as the dotted
string formed from header bytes 4 to 7; the quad is that string's exact
content. -/
structure IPv4 where
  a : Nat
  b : Nat
  c : Nat
  d : Nat
  deriving DecidableEq

/-- Node `buffer.readUInt16BE(off)` on a byte list (big endian). Inside the
source it is only invoked at offsets covered by a prior length check, where
`getD` coincides with the real read. -/
def readUInt16BE (buf : List Nat) (off : Nat) : Nat :=
  buf.getD off 0 * 256 + buf.getD (off + 1) 0

/-- Node `buffer.readUInt32BE(off)` on a byte list (big endian). -/
def readUInt32BE (buf : List Nat) (off : Nat) : Nat :=
  buf.getD off 0 * 16777216 + buf.getD (off + 1) 0 * 65536 +
    buf.getD (off + 2) 0 * 256 + buf.getD (off + 3) 0

/-- The RTP header record built identically by
`RTPPacketParser.parsePacket` (aes67-receiver) and
`AES67Router.handleRTPPacket` (aes67-router). -/
structure RTPHeader where
  version : Nat
  padding : Nat
  extension : Nat
  csrcCount : Nat
  marker : Nat
  payloadType : Nat
  sequenceNumber : Nat
  timestamp : Nat
  ssrc : Nat
  deriving DecidableEq

/-- The header-field extraction shared by both RTP decoders:
`(buffer[0] >> 6) & 0x3` is `b / 64 % 4` for byte values, and so on. -/
def parseRTPHeader (buf : List Nat) : RTPHeader :=
  { version := buf.getD 0 0 / 64 % 4
    padding := buf.getD 0 0 / 32 % 2
    extension := buf.getD 0 0 / 16 % 2
    csrcCount := buf.getD 0 0 % 16
    marker := buf.getD 1 0 / 128 % 2
    payloadType := buf.getD 1 0 % 128
    sequenceNumber := readUInt16BE buf 2
    timestamp := readUInt32BE buf 4
    ssrc := readUInt32BE buf 8 }

namespace RTPPacketBuilder

/-- JS `ToInt32`: the value an expression takes when used as an operand of
a bitwise operator, a signed 32-bit representative of its class mod 2^32. -/
def toInt32 (n : Int) : Int :=
  let m := n % 4294967296
  if m < 2147483648 then m else m - 4294967296

/-- `RTPPacketBuilder.incrementTimestamp` (aes67-sender.js line 53):
`this.timestamp = (this.timestamp + samples) & 0xFFFFFFFF`. In JS, `&`
converts both operands with ToInt32; `ToInt32(0xFFFFFFFF) = -1` and
`x & -1 = x`, so the assigned value is `ToInt32(timestamp + samples)`. -/
def incrementTimestamp (timestamp samples : Int) : Int :=
  toInt32 (timestamp + samples)

end RTPPacketBuilder

namespace RTPPacketParser

/-- Mutable state of `RTPPacketParser` (aes67-receiver). -/
structure State where
  lastSequence : Option Nat
  packetsLost : Nat
  packetsReceived : Nat
  deriving DecidableEq

/-- The constructor / `reset()` state. -/
def initState : State := ⟨none, 0, 0⟩

/-- Node `payload.slice(0, -k)` for a nonnegative JS number `k`: a negative
end index counts from the end (clamped at 0 by the truncated subtraction),
but `-0` is `0`, so a count of zero yields the empty buffer. -/
def jsSliceNegEnd (l : List Nat) (k : Nat) : List Nat :=
  if k = 0 then [] else l.take (l.length - k)

/-- `RTPPacketParser.parsePacket` (aes67-receiver): returns the header and
payload, or `none` for buffers shorter than 12 bytes, while updating the
loss-tracking state. `(seq - expected + 0x10000) & 0xFFFF` is written
`(seq + 65536 - expected) % 65536`, the same value since
`expected < 65536`. -/
def parsePacket (s : State) (buffer : List Nat) : Option (RTPHeader × List Nat) × State :=
  if buffer.length < 12 then (none, s)
  else
    let header := parseRTPHeader buffer
    let s1 :=
      match s.lastSequence with
      | none => s
      | some last =>
        let expected := (last + 1) % 65536
        if header.sequenceNumber ≠ expected then
          { s with packetsLost :=
              s.packetsLost + (header.sequenceNumber + 65536 - expected) % 65536 }
        else s
    let s2 := { s1 with
      lastSequence := some header.sequenceNumber
      packetsReceived := s1.packetsReceived + 1 }
    let headerLength := 12 + header.csrcCount * 4
    let headerLength :=
      if header.extension ≠ 0 ∧ headerLength + 4 ≤ buffer.length then
        headerLength + 4 + readUInt16BE buffer (headerLength + 2) * 4
      else headerLength
    let payload := buffer.drop headerLength
    let payload :=
      if header.padding ≠ 0 ∧ 0 < payload.length then
        jsSliceNegEnd payload (payload.getD (payload.length - 1) 0)
      else payload
    (some (header, payload), s2)

/-- Result of `RTPPacketParser.getStats`; `lossRate` is the JS float
division modelled as an exact rational. -/
structure Stats where
  packetsReceived : Nat
  packetsLost : Nat
  lossRate : ℚ
  deriving DecidableEq

/-- `RTPPacketParser.getStats` (aes67-receiver lines 315 to 322). -/
def getStats (s : State) : Stats :=
  { packetsReceived := s.packetsReceived
    packetsLost := s.packetsLost
    lossRate :=
      if 0 < s.packetsReceived then
        (s.packetsLost : ℚ) / ((s.packetsReceived : ℚ) + (s.packetsLost : ℚ))
      else 0 }

/-- A minimal 12-byte RTP packet (version 2, payload type 96, no payload)
carrying the given sequence number at bytes 2 and 3. -/
def mkSeqPacket (seq : Nat) : List Nat :=
  [128, 96, seq / 256 % 256, seq % 256, 0, 0, 0, 0, 0, 0, 0, 0]

end RTPPacketParser

namespace AES67Router

/-- `12 + rtpHeader.csrcCount * 4`, the pre-extension header length both
decoders compute. -/
def baseHeaderLength (msg : List Nat) : Nat :=
  12 + msg.getD 0 0 % 16 * 4

/-- The final header length `AES67Router.handleRTPPacket` computes: the
CSRC-extended length, further extended by `4 + extLength` when the
extension bit is set and the 16-bit length field is inside the buffer. -/
def fullHeaderLength (msg : List Nat) : Nat :=
  let hl := baseHeaderLength msg
  if (parseRTPHeader msg).extension ≠ 0 ∧ hl + 4 ≤ msg.length then
    hl + 4 + readUInt16BE msg (hl + 2) * 4
  else hl

/-- `AES67Router.handleRTPPacket` (aes67-router lines 1399 to 1468),
decode portion: the subscription statistics bookkeeping and the emitted
audio event simply carry the returned header and payload, so the function
is modelled as returning them; `none` is the silent drop (early return). -/
def handleRTPPacket (msg : List Nat) : Option (RTPHeader × List Nat) :=
  if msg.length < 12 then none
  else
    let header := parseRTPHeader msg
    let headerLength := 12 + header.csrcCount * 4
    if msg.length < headerLength then none
    else
      let headerLength :=
        if header.extension ≠ 0 ∧ headerLength + 4 ≤ msg.length then
          headerLength + 4 + readUInt16BE msg (headerLength + 2) * 4
        else headerLength
      if msg.length < headerLength then none
      else some (header, msg.drop headerLength)

end AES67Router

namespace AudioBufferManager

/-- Constructor parameters of `AudioBufferManager` (aes67-receiver). -/
structure Config where
  sampleRate : Nat
  channels : Nat
  bytesPerSample : Nat
  deriving DecidableEq

/-- `this.maxBufferSize = sampleRate * channels * bytesPerSample * 0.1`
(100 ms); the JS float `0.1` is modelled as the exact rational `1/10`. -/
def maxBufferSize (c : Config) : ℚ :=
  ((c.sampleRate * c.channels * c.bytesPerSample : Nat) : ℚ) * (1 / 10)

/-- `this.buffers.reduce((sum, buf) => sum + buf.length, 0)`. -/
def totalSize (bufs : List (List Nat)) : Nat :=
  (bufs.map List.length).sum

/-- The trim loop of `addAudioData`: `while (buffers.length > 0 && total >
maxBufferSize * 0.8) buffers.shift()`, with `0.8` the exact `8/10`. -/
def trimLoop (c : Config) (bufs : List (List Nat)) : List (List Nat) :=
  match bufs with
  | [] => []
  | _ :: rest =>
    if (totalSize bufs : ℚ) > maxBufferSize c * (8 / 10) then trimLoop c rest
    else bufs

/-- `AudioBufferManager.addAudioData` (aes67-receiver lines 341 to 353):
push to the tail, then trim from the head when over the cap. -/
def addAudioData (c : Config) (bufs : List (List Nat)) (data : List Nat) :
    List (List Nat) :=
  let bufs := bufs ++ [data]
  if (totalSize bufs : ℚ) > maxBufferSize c then trimLoop c bufs else bufs

end AudioBufferManager

/-- The 8-byte SAP header the encoders build: first byte, auth length 0,
the 16-bit message-id hash big endian, then the four source-IP octets. -/
def sapHeaderBytes (b0 : Nat) (msgIdHash : Nat) (ip : IPv4) : List Nat :=
  [b0, 0, msgIdHash / 256, msgIdHash % 256, ip.a, ip.b, ip.c, ip.d]

/-- `Buffer.from('application/sdp\0', 'ascii')`: 16 bytes. -/
def applicationSdpTag : List Nat :=
  [97, 112, 112, 108, 105, 99, 97, 116, 105, 111, 110, 47, 115, 100, 112, 0]

namespace SAPAnnouncer

/-- `SAPAnnouncer.createSAPPacket` (aes67-sender lines 149 to 173):
`0x20` header, the 16-byte payload-type tag at offset 8, SDP at 24. The
message-id hash is the announcer's random `msgIdHash` field, passed in. -/
def createSAPPacket (sdpData : List Nat) (ip : IPv4) (msgIdHash : Nat) : List Nat :=
  sapHeaderBytes 32 msgIdHash ip ++ applicationSdpTag ++ sdpData

/-- The packet built by `SAPAnnouncer.sendDeletion` (aes67-sender lines
175 to 199): identical layout with first byte `0x24`. -/
def sendDeletionPacket (sdpData : List Nat) (ip : IPv4) (msgIdHash : Nat) : List Nat :=
  sapHeaderBytes 36 msgIdHash ip ++ applicationSdpTag ++ sdpData

end SAPAnnouncer

namespace AES67Discovery

/-- `AES67Discovery.createSAPPacket` (aes67-router lines 1195 to 1227).
The source allocates `8 + 8 + sdp.length` bytes, does
`packet.write('application/sdp', 8, 'ascii')` and then copies the SDP at
offset 16. `Buffer.write` truncates the string to the remaining buffer
space and every tag byte past offset 15 is overwritten by the SDP copy,
so the packet is the 8-byte header (hash 0), the first 8 tag bytes
(`applicat`), then the SDP text. -/
def createSAPPacket (sdpData : List Nat) (ip : IPv4) : List Nat :=
  sapHeaderBytes 32 0 ip ++ List.take 8 applicationSdpTag ++ sdpData

/-- Length of the run of nonzero bytes a scan from the head traverses
before hitting a zero byte or the end of the buffer: the loop
`while (sdpOffset < msg.length && msg[sdpOffset] !== 0) sdpOffset++`. -/
def firstNonzeroPrefixLen : List Nat → Nat
  | [] => 0
  | b :: rest => if b = 0 then 0 else firstNonzeroPrefixLen rest + 1

/-- `payloadType.includes('sdp')` on the 8 sliced bytes: the ASCII bytes
`s`, `d`, `p` occur consecutively (`s`, `d`, `p` are single UTF-8 bytes,
so the substring test on the decoded string is this byte test). -/
def containsSdpTag : List Nat → Bool
  | 115 :: 100 :: 112 :: _ => true
  | _ :: rest => containsSdpTag rest
  | [] => false

/-- `sdpData.startsWith('v=0')` on bytes. -/
def startsWithV0 : List Nat → Bool
  | 118 :: 61 :: 48 :: _ => true
  | _ => false

/-- What a successful SAP decode hands to `parseSDP`: the dotted source IP
from header bytes 4 to 7 (as its octets), the message-type bit, and the
extracted SDP bytes. -/
structure SapResult where
  sourceIP : IPv4
  messageType : Nat
  sdpData : List Nat
  deriving DecidableEq

/-- `AES67Discovery.handleSAPMessage` (aes67-router lines 882 to 950):
every early return (undersized packet, wrong version, any out-of-bounds
offset, payload not starting with `v=0`) is `none`; `some` carries
exactly the values passed on to `parseSDP`. -/
def handleSAPMessage (msg : List Nat) : Option SapResult :=
  if msg.length < 8 then none
  else if msg.getD 0 0 / 32 % 8 ≠ 1 then none
  else
    let messageType := msg.getD 0 0 / 4 % 2
    let authLength := msg.getD 1 0
    let sourceIP : IPv4 := ⟨msg.getD 4 0, msg.getD 5 0, msg.getD 6 0, msg.getD 7 0⟩
    let off0 := 8 + authLength * 4
    if msg.length ≤ off0 then none
    else
      let off1 := off0 + firstNonzeroPrefixLen (msg.drop off0) + 1
      if msg.length ≤ off1 then none
      else
        let off2 :=
          if off1 + 8 < msg.length ∧ containsSdpTag (List.take 8 (msg.drop off1)) = true
          then off1 + 8 else off1
        if msg.length ≤ off2 then none
        else
          let sdpData := msg.drop off2
          if startsWithV0 sdpData = true then some ⟨sourceIP, messageType, sdpData⟩
          else none

/-- One entry of a parsed `media.rtpmap` array as the extraction helpers
duck-type it: optional `channels`, `rate` and `name` fields. Numeric
fields are integers (`parseInt` of an integer-valued field is the value
itself). -/
structure Rtpmap where
  channels : Option Int
  rate : Option Int
  name : Option String
  deriving DecidableEq

/-- A media section as the extraction helpers access it. -/
structure Media where
  rtpmap : Option (List Rtpmap)
  deriving DecidableEq

/-- Loop body of `extractChannels`: the first entry with a truthy
`channels` field returns `parseInt(channels) || 2`; a zero field is falsy
and skipped. -/
def extractChannelsLoop : List Rtpmap → Int
  | [] => 2
  | r :: rest =>
    match r.channels with
    | some c => if c ≠ 0 then c else extractChannelsLoop rest
    | none => extractChannelsLoop rest

/-- `AES67Discovery.extractChannels` (aes67-router lines 1007 to 1022);
default 2. -/
def extractChannels (m : Media) : Int :=
  match m.rtpmap with
  | some l => extractChannelsLoop l
  | none => 2

/-- Loop body of `extractSampleRate`. -/
def extractSampleRateLoop : List Rtpmap → Int
  | [] => 48000
  | r :: rest =>
    match r.rate with
    | some q => if q ≠ 0 then q else extractSampleRateLoop rest
    | none => extractSampleRateLoop rest

/-- `AES67Discovery.extractSampleRate` (aes67-router lines 1024 to 1038);
default `AES67_SAMPLE_RATE = 48000`. -/
def extractSampleRate (m : Media) : Int :=
  match m.rtpmap with
  | some l => extractSampleRateLoop l
  | none => 48000

/-- Loop body of `extractEncoding`: the first truthy (nonempty) `name` is
returned verbatim. -/
def extractEncodingLoop : List Rtpmap → String
  | [] => "L24"
  | r :: rest =>
    match r.name with
    | some nm => if nm ≠ "" then nm else extractEncodingLoop rest
    | none => extractEncodingLoop rest

/-- `AES67Discovery.extractEncoding` (aes67-router lines 1040 to 1054);
default `L24`. -/
def extractEncoding (m : Media) : String :=
  match m.rtpmap with
  | some l => extractEncodingLoop l
  | none => "L24"

/-- The stream descriptor fields `registerStream` and the claims touch;
the remaining fields built by `parseSDP` (id, description, ptime, media
clock, sdp text, lastSeen) ride along unchanged and are omitted. -/
structure StreamInfo where
  name : String
  sourceIP : String
  destIP : String
  port : Nat
  channels : Int
  sampleRate : Int
  encoding : String
  status : String
  deriving DecidableEq

/-- A `devices` map entry. -/
structure Device where
  ip : String
  name : String
  streams : List String
  deriving DecidableEq

/-- The two maps `registerStream` mutates (`this.streams` and the device
map; `globalStreamRegistry` receives the identical `set`). A JS `Map` is
an insertion-ordered association list with distinct keys. -/
structure DiscoveryState where
  streams : List (String × StreamInfo)
  devices : List (String × Device)
  deriving DecidableEq

/-- Events sent out the first output wire. -/
inductive DiscoveryEvent where
  | streamDiscovered (info : StreamInfo)
  deriving DecidableEq

/-- `Map.set`: overwrite the existing key in place or append a new one. -/
def mapSet {α : Type} (m : List (String × α)) (k : String) (v : α) :
    List (String × α) :=
  if m.any (fun p => p.1 == k) then
    m.map (fun p => if p.1 == k then (k, v) else p)
  else m ++ [(k, v)]

/-- `` `${streamInfo.sourceIP}:${streamInfo.port}` ``. -/
def streamKey (info : StreamInfo) : String :=
  info.sourceIP ++ ":" ++ toString info.port

/-- What a `registerStream` call produces: the updated maps, the JS
return value, and the emitted events. -/
structure RegisterResult where
  state : DiscoveryState
  ret : Option Bool
  events : List DiscoveryEvent
  deriving DecidableEq

/-- `AES67Discovery.registerStream` (aes67-router lines 1084 to 1132).
The function body ends without a `return` statement, so the JS return
value is `undefined`, modelled as `ret := none`. -/
def registerStream (st : DiscoveryState) (info : StreamInfo) : RegisterResult :=
  if info.sourceIP = "" ∨ info.port = 0 then ⟨st, none, []⟩
  else
    let key := streamKey info
    let isNew := !(st.streams.any (fun p => p.1 == key))
    let streams := mapSet st.streams key info
    let devices :=
      if st.devices.any (fun p => p.1 == info.sourceIP) then st.devices
      else st.devices ++ [(info.sourceIP, ⟨info.sourceIP, info.sourceIP, []⟩)]
    let devices := devices.map (fun p =>
      if p.1 == info.sourceIP && !(p.2.streams.contains key) then
        (p.1, { p.2 with streams := p.2.streams ++ [key] })
      else p)
    let events :=
      if isNew && (info.status == "active") then [DiscoveryEvent.streamDiscovered info]
      else []
    ⟨⟨streams, devices⟩, none, events⟩

end AES67Discovery

/-- Claim C3 (code bug): the spec requires `incrementTimestamp` to leave
`(timestamp + samples) mod 2^32`, a value in `[0, 2^32)`. The JS mask
`& 0xFFFFFFFF` instead yields the signed `ToInt32` representative: with
the sum at `2^31` the stored timestamp is `-2^31`, not `2^31` (and the
next `buildPacket` call would throw in `writeUInt32BE`). -/
theorem C3_incrementTimestamp_signed :
    RTPPacketBuilder.incrementTimestamp 2147483647 1 = -2147483648 ∧
    RTPPacketBuilder.incrementTimestamp 2147483647 1 ≠
      (2147483647 + 1) % (4294967296 : Int) := by
  decide

/-- Claim C10: `getStats` always reports a loss rate in `[0, 1]`, exactly
`0` when no packet was received (the guard avoids the `0/0` division) and
`lost / (received + lost)` otherwise. -/
theorem C10_lossRate_bounds (s : RTPPacketParser.State) :
    0 ≤ (RTPPacketParser.getStats s).lossRate ∧
    (RTPPacketParser.getStats s).lossRate ≤ 1 ∧
    (s.packetsReceived = 0 → (RTPPacketParser.getStats s).lossRate = 0) ∧
    (0 < s.packetsReceived →
      (RTPPacketParser.getStats s).lossRate =
        (s.packetsLost : ℚ) / ((s.packetsReceived : ℚ) + (s.packetsLost : ℚ))) := by
  have hnn : (0 : ℚ) ≤ (s.packetsLost : ℚ) := Nat.cast_nonneg _
  rcases Nat.eq_zero_or_pos s.packetsReceived with h | h
  · simp [RTPPacketParser.getStats, h]
  · have hpos : (0 : ℚ) < (s.packetsReceived : ℚ) + (s.packetsLost : ℚ) := by
      have : (0 : ℚ) < (s.packetsReceived : ℚ) := by exact_mod_cast h
      linarith
    have hne : s.packetsReceived ≠ 0 := Nat.pos_iff_ne_zero.mp h
    refine ⟨?_, ?_, fun h0 => absurd h0 hne, fun _ => ?_⟩
    · simp only [RTPPacketParser.getStats, if_pos h]
      exact div_nonneg hnn hpos.le
    · simp only [RTPPacketParser.getStats, if_pos h]
      rw [div_le_one hpos]
      linarith
    · simp only [RTPPacketParser.getStats, if_pos h]

/-- Witness for C10 at a concrete state with one lost and four received
packets. -/
theorem C10_lossRate_bounds_witness :
    (RTPPacketParser.getStats ⟨some 5, 1, 4⟩).lossRate = 1 / 5 := by
  have h := (C10_lossRate_bounds ⟨some 5, 1, 4⟩).2.2.2 (by decide)
  rw [h]
  norm_num

/-- Claim C2 (amended): both RTP decoders are total and return failure
values rather than throwing. Buffers shorter than 12 bytes make
`RTPPacketParser.parsePacket` return `null` (state untouched) and
`AES67Router.handleRTPPacket` drop the packet. When the computed header
length exceeds the buffer at any point, `handleRTPPacket` drops the
packet, but `parsePacket` still returns a non-null result (its payload
slice is clamped, possibly to empty) for every buffer of at least 12
bytes. -/
theorem C2_rtp_decode_total :
    (∀ (s : RTPPacketParser.State) (buf : List Nat), buf.length < 12 →
      RTPPacketParser.parsePacket s buf = (none, s)) ∧
    (∀ buf : List Nat, buf.length < 12 →
      AES67Router.handleRTPPacket buf = none) ∧
    (∀ buf : List Nat, buf.length < AES67Router.fullHeaderLength buf →
      AES67Router.handleRTPPacket buf = none) ∧
    (∀ (s : RTPPacketParser.State) (buf : List Nat), 12 ≤ buf.length →
      ((RTPPacketParser.parsePacket s buf).1).isSome = true) := by
  refine ⟨?_, ?_, ?_, ?_⟩
  · intro s buf h
    simp [RTPPacketParser.parsePacket, h]
  · intro buf h
    simp [AES67Router.handleRTPPacket, h]
  · intro buf h
    simp only [AES67Router.fullHeaderLength, AES67Router.baseHeaderLength,
      parseRTPHeader] at h
    simp only [AES67Router.handleRTPPacket, parseRTPHeader]
    split_ifs at h ⊢ <;> rfl
  · intro s buf h
    simp [RTPPacketParser.parsePacket, Nat.not_lt.mpr h]

/-- Witness for C2 at concrete inputs: a 3-byte buffer is rejected by both
decoders, a 12-byte buffer with one CSRC entry announced (header length
16 > 12) is dropped by the router, and the same buffer still yields a
non-null parser result. -/
theorem C2_rtp_decode_total_witness :
    RTPPacketParser.parsePacket RTPPacketParser.initState [1, 2, 3] =
      (none, RTPPacketParser.initState) ∧
    AES67Router.handleRTPPacket [1, 2, 3] = none ∧
    AES67Router.handleRTPPacket [129, 96, 0, 1, 0, 0, 0, 0, 0, 0, 0, 1] = none ∧
    ((RTPPacketParser.parsePacket RTPPacketParser.initState
      [129, 96, 0, 1, 0, 0, 0, 0, 0, 0, 0, 1]).1).isSome = true := by
  refine ⟨?_, ?_, ?_, ?_⟩
  · exact C2_rtp_decode_total.1 RTPPacketParser.initState [1, 2, 3] (by decide)
  · exact C2_rtp_decode_total.2.1 [1, 2, 3] (by decide)
  · exact C2_rtp_decode_total.2.2.1 [129, 96, 0, 1, 0, 0, 0, 0, 0, 0, 0, 1] (by decide)
  · exact C2_rtp_decode_total.2.2.2 RTPPacketParser.initState
      [129, 96, 0, 1, 0, 0, 0, 0, 0, 0, 0, 1] (by decide)

/-- Counterexample for C2 as stated: on a 12-byte packet whose CSRC count
makes the computed header length 16 exceed the buffer, the receiver's
`parsePacket` does not return `null` — it returns a packet whose payload
is empty. -/
theorem C2_parsePacket_overflow_not_null :
    ([129, 96, 0, 1, 0, 0, 0, 0, 0, 0, 0, 1] : List Nat).length <
      AES67Router.fullHeaderLength [129, 96, 0, 1, 0, 0, 0, 0, 0, 0, 0, 1] ∧
    ((RTPPacketParser.parsePacket RTPPacketParser.initState
      [129, 96, 0, 1, 0, 0, 0, 0, 0, 0, 0, 1]).1).isSome = true ∧
    ((RTPPacketParser.parsePacket RTPPacketParser.initState
      [129, 96, 0, 1, 0, 0, 0, 0, 0, 0, 0, 1]).1).map Prod.snd = some [] := by
  decide

/-- Claim C7 (amended): on a successfully decoded packet with the padding
bit set and a non-empty raw payload, the returned payload is
`payload.slice(0, -k)` where `k` is the raw payload's last byte: when
`1 ≤ k` exactly `k` trailing bytes are removed (clamped, never more than
the payload contains), but when `k = 0` the JS `-0` end index empties the
payload instead of returning it unchanged. Stated over packets with a
plain 12-byte header (version 2, padding set, no CSRC, no extension). -/
theorem C7_padding_strip (s : RTPPacketParser.State) (raw : List Nat) (k : Nat)
    (hne : raw ≠ []) (hk : raw.getD (raw.length - 1) 0 = k) :
    ((RTPPacketParser.parsePacket s
        ([160, 96, 0, 1, 0, 0, 0, 0, 0, 0, 0, 7] ++ raw)).1).map Prod.snd =
      some (RTPPacketParser.jsSliceNegEnd raw k) ∧
    (1 ≤ k → (RTPPacketParser.jsSliceNegEnd raw k).length = raw.length - k) ∧
    (k = 0 → RTPPacketParser.jsSliceNegEnd raw k = []) ∧
    (RTPPacketParser.jsSliceNegEnd raw k).length ≤ raw.length := by
  have hh : parseRTPHeader ([160, 96, 0, 1, 0, 0, 0, 0, 0, 0, 0, 7] ++ raw) =
      ⟨2, 1, 0, 0, 0, 96, 1, 0, 7⟩ := by
    simp [parseRTPHeader, readUInt16BE, readUInt32BE]
  have hdrop : ([160, 96, 0, 1, 0, 0, 0, 0, 0, 0, 0, 7] ++ raw).drop 12 = raw := rfl
  have hlen : ([160, 96, 0, 1, 0, 0, 0, 0, 0, 0, 0, 7] ++ raw).length =
      raw.length + 12 := by simp [List.length_append]
  have hpos : 0 < raw.length := List.length_pos.mpr hne
  refine ⟨?_, ?_, ?_, ?_⟩
  · simp only [RTPPacketParser.parsePacket, hh, hdrop, hlen]
    rw [if_neg (by omega)]
    norm_num
    rw [if_pos hpos, ← hk]
    simp [List.getD_eq_getElem?_getD]
  · intro h1
    have hk0 : k ≠ 0 := by omega
    simp [RTPPacketParser.jsSliceNegEnd, hk0, Nat.sub_le]
  · intro h0
    simp [RTPPacketParser.jsSliceNegEnd, h0]
  · by_cases h0 : k = 0
    · simp [RTPPacketParser.jsSliceNegEnd, h0]
    · simp [RTPPacketParser.jsSliceNegEnd, h0]

/-- Witness for C7: stripping padding count 2 from the 4-byte raw payload
`[1, 2, 3, 2]` leaves `[1, 2]`. -/
theorem C7_padding_strip_witness :
    ((RTPPacketParser.parsePacket RTPPacketParser.initState
        ([160, 96, 0, 1, 0, 0, 0, 0, 0, 0, 0, 7] ++ [1, 2, 3, 2])).1).map Prod.snd =
      some [1, 2] := by
  have h := (C7_padding_strip RTPPacketParser.initState [1, 2, 3, 2] 2
    (by decide) (by decide)).1
  rw [h]
  decide

/-- Counterexample for C7 as stated: with padding set and a raw payload
`[5, 0]` whose last byte (the padding count) is `0`, the claim demands the
payload back unchanged, but the decoder returns the empty payload
(`slice(0, -0)` is `slice(0, 0)`). -/
theorem C7_padding_zero_clears_payload :
    ((RTPPacketParser.parsePacket RTPPacketParser.initState
        [160, 96, 0, 1, 0, 0, 0, 0, 0, 0, 0, 7, 5, 0]).1).map Prod.snd =
      some [] ∧
    some ([] : List Nat) ≠ some [5, 0] := by
  decide

/-- Claim C4: on a fresh parser, decoding packets with sequence numbers
1, 2, 4, 5 yields `packetsLost = 1`, `packetsReceived = 4` and a reported
loss rate of `0.2`; in general the first decoded packet initializes
`lastSequence` without adding loss, and every later decode adds
`(actual - expected + 65536) mod 65536` (written `(actual + 65536 -
expected) mod 65536` over naturals, the same value) with `expected =
(lastSequence + 1) mod 65536`, always storing the actual sequence
number. -/
theorem C4_loss_accounting :
    ((([RTPPacketParser.mkSeqPacket 1, RTPPacketParser.mkSeqPacket 2,
        RTPPacketParser.mkSeqPacket 4, RTPPacketParser.mkSeqPacket 5].foldl
        (fun s b => (RTPPacketParser.parsePacket s b).2)
        RTPPacketParser.initState).packetsLost = 1 ∧
      ([RTPPacketParser.mkSeqPacket 1, RTPPacketParser.mkSeqPacket 2,
        RTPPacketParser.mkSeqPacket 4, RTPPacketParser.mkSeqPacket 5].foldl
        (fun s b => (RTPPacketParser.parsePacket s b).2)
        RTPPacketParser.initState).packetsReceived = 4 ∧
      (RTPPacketParser.getStats
        ([RTPPacketParser.mkSeqPacket 1, RTPPacketParser.mkSeqPacket 2,
          RTPPacketParser.mkSeqPacket 4, RTPPacketParser.mkSeqPacket 5].foldl
          (fun s b => (RTPPacketParser.parsePacket s b).2)
          RTPPacketParser.initState)).lossRate = 0.2) ∧
    (∀ (s : RTPPacketParser.State) (buf : List Nat), 12 ≤ buf.length →
      (RTPPacketParser.parsePacket s buf).2 =
        { lastSequence := some (readUInt16BE buf 2)
          packetsReceived := s.packetsReceived + 1
          packetsLost := s.packetsLost +
            (match s.lastSequence with
            | none => 0
            | some last =>
              (readUInt16BE buf 2 + 65536 - (last + 1) % 65536) % 65536) })) := by
  constructor
  · have hfinal : [RTPPacketParser.mkSeqPacket 1, RTPPacketParser.mkSeqPacket 2,
        RTPPacketParser.mkSeqPacket 4, RTPPacketParser.mkSeqPacket 5].foldl
        (fun s b => (RTPPacketParser.parsePacket s b).2)
        RTPPacketParser.initState = ⟨some 5, 1, 4⟩ := by decide
    refine ⟨by rw [hfinal], by rw [hfinal], ?_⟩
    rw [hfinal]
    norm_num [RTPPacketParser.getStats]
  · intro s buf h
    obtain ⟨last?, lost, recv⟩ := s
    cases last? with
    | none =>
      simp [RTPPacketParser.parsePacket, Nat.not_lt.mpr h, parseRTPHeader]
    | some last =>
      by_cases he : readUInt16BE buf 2 = (last + 1) % 65536
      · simp [RTPPacketParser.parsePacket, Nat.not_lt.mpr h, parseRTPHeader, he]
      · simp [RTPPacketParser.parsePacket, Nat.not_lt.mpr h, parseRTPHeader, he]

/-- Witness for C4 at a concrete later decode: from `lastSequence = 9`
(expected 10), a packet with sequence 12 adds 2 lost packets. -/
theorem C4_loss_accounting_witness :
    (RTPPacketParser.parsePacket ⟨some 9, 0, 1⟩ (RTPPacketParser.mkSeqPacket 12)).2 =
      ⟨some 12, 2, 2⟩ := by
  have h := C4_loss_accounting.2 ⟨some 9, 0, 1⟩ (RTPPacketParser.mkSeqPacket 12)
    (by decide)
  rw [h]
  decide

/-- The 100 ms byte cap is nonnegative for every configuration. -/
theorem audioBuffer_maxBufferSize_nonneg (c : AudioBufferManager.Config) :
    0 ≤ AudioBufferManager.maxBufferSize c := by
  unfold AudioBufferManager.maxBufferSize
  positivity

/-- The trim loop always ends at or below 80 percent of the cap (popping
every chunk leaves 0, which also satisfies the bound). -/
theorem audioBuffer_trimLoop_le (c : AudioBufferManager.Config)
    (bufs : List (List Nat)) :
    (AudioBufferManager.totalSize (AudioBufferManager.trimLoop c bufs) : ℚ) ≤
      AudioBufferManager.maxBufferSize c * (8 / 10) := by
  induction bufs with
  | nil =>
    simp only [AudioBufferManager.trimLoop, AudioBufferManager.totalSize,
      List.map_nil, List.sum_nil, Nat.cast_zero]
    have := audioBuffer_maxBufferSize_nonneg c
    linarith
  | cons b rest ih =>
    by_cases hgt : (AudioBufferManager.totalSize (b :: rest) : ℚ) >
        AudioBufferManager.maxBufferSize c * (8 / 10)
    · simpa [AudioBufferManager.trimLoop, hgt] using ih
    · simp only [AudioBufferManager.trimLoop, hgt, if_neg, ite_false]
      linarith [not_lt.mp hgt]

/-- The trim loop only pops from the head: its result is a tail of its
input. -/
theorem audioBuffer_trimLoop_drop (c : AudioBufferManager.Config)
    (bufs : List (List Nat)) :
    ∃ k, AudioBufferManager.trimLoop c bufs = bufs.drop k := by
  induction bufs with
  | nil => exact ⟨0, rfl⟩
  | cons b rest ih =>
    by_cases hgt : (AudioBufferManager.totalSize (b :: rest) : ℚ) >
        AudioBufferManager.maxBufferSize c * (8 / 10)
    · obtain ⟨k, hk⟩ := ih
      exact ⟨k + 1, by simp [AudioBufferManager.trimLoop, hgt, hk]⟩
    · exact ⟨0, by simp [AudioBufferManager.trimLoop, hgt]⟩

/-- Claim C8: after every append the buffered byte total is at most
`maxBufferedBytes = sampleRate * channels * bytesPerSample * 0.1`;
whenever the push exceeded that cap, chunks were popped from the head
(the result is a tail of the pushed queue) until at or below 80 percent
of the cap. -/
theorem C8_jitter_buffer_bound (c : AudioBufferManager.Config)
    (bufs : List (List Nat)) (data : List Nat) :
    (AudioBufferManager.totalSize (AudioBufferManager.addAudioData c bufs data) : ℚ) ≤
      AudioBufferManager.maxBufferSize c ∧
    ((AudioBufferManager.totalSize (bufs ++ [data]) : ℚ) >
        AudioBufferManager.maxBufferSize c →
      (AudioBufferManager.totalSize (AudioBufferManager.addAudioData c bufs data) : ℚ) ≤
        AudioBufferManager.maxBufferSize c * (8 / 10)) ∧
    (∃ k, AudioBufferManager.addAudioData c bufs data = (bufs ++ [data]).drop k) := by
  have hnn := audioBuffer_maxBufferSize_nonneg c
  by_cases hgt : (AudioBufferManager.totalSize (bufs ++ [data]) : ℚ) >
      AudioBufferManager.maxBufferSize c
  · have hle := audioBuffer_trimLoop_le c (bufs ++ [data])
    refine ⟨?_, fun _ => ?_, ?_⟩
    · simp only [AudioBufferManager.addAudioData, hgt, if_pos]
      linarith
    · simpa [AudioBufferManager.addAudioData, hgt] using hle
    · simp only [AudioBufferManager.addAudioData, hgt, if_pos]
      exact audioBuffer_trimLoop_drop c (bufs ++ [data])
  · refine ⟨?_, fun h => absurd h hgt, ⟨0, ?_⟩⟩
    · simp only [AudioBufferManager.addAudioData, hgt, if_neg, ite_false]
      linarith [not_lt.mp hgt]
    · simp [AudioBufferManager.addAudioData, hgt]

/-- Witness for C8: with a 10-byte cap (sampleRate 100, mono, 1 byte per
sample), pushing 6 bytes onto 5 buffered bytes exceeds the cap and the
trim leaves 6 bytes, at most 80 percent headroom is respected. -/
theorem C8_jitter_buffer_bound_witness :
    (AudioBufferManager.totalSize (AudioBufferManager.addAudioData ⟨100, 1, 1⟩
        [[1, 2, 3, 4, 5]] [6, 7, 8, 9, 10, 11]) : ℚ) ≤
      AudioBufferManager.maxBufferSize ⟨100, 1, 1⟩ * (8 / 10) := by
  refine (C8_jitter_buffer_bound ⟨100, 1, 1⟩ [[1, 2, 3, 4, 5]]
    [6, 7, 8, 9, 10, 11]).2.1 ?_
  norm_num [AudioBufferManager.totalSize, AudioBufferManager.maxBufferSize]

/-- If every `channels` field present in the rtpmap list is nonnegative,
the channels loop returns at least 1 (a zero field is falsy and skipped,
a missing one defaults to 2). -/
theorem extractChannelsLoop_ge_one (l : List AES67Discovery.Rtpmap)
    (h : ∀ r ∈ l, ∀ c, r.channels = some c → 0 ≤ c) :
    1 ≤ AES67Discovery.extractChannelsLoop l := by
  induction l with
  | nil => simp [AES67Discovery.extractChannelsLoop]
  | cons r rest ih =>
    have hrest : ∀ r ∈ rest, ∀ c, r.channels = some c → 0 ≤ c :=
      fun r hr => h r (List.mem_cons_of_mem _ hr)
    cases hc : r.channels with
    | none => simpa [AES67Discovery.extractChannelsLoop, hc] using ih hrest
    | some c =>
      by_cases hz : c = 0
      · simpa [AES67Discovery.extractChannelsLoop, hc, hz] using ih hrest
      · have := h r (List.mem_cons_self _ _) c hc
        simp only [AES67Discovery.extractChannelsLoop, hc, hz, ne_eq,
          not_false_eq_true, if_true]
        omega

/-- If every `rate` field present in the rtpmap list is nonnegative, the
sample-rate loop returns a positive value. -/
theorem extractSampleRateLoop_pos (l : List AES67Discovery.Rtpmap)
    (h : ∀ r ∈ l, ∀ q, r.rate = some q → 0 ≤ q) :
    0 < AES67Discovery.extractSampleRateLoop l := by
  induction l with
  | nil => simp [AES67Discovery.extractSampleRateLoop]
  | cons r rest ih =>
    have hrest : ∀ r ∈ rest, ∀ q, r.rate = some q → 0 ≤ q :=
      fun r hr => h r (List.mem_cons_of_mem _ hr)
    cases hc : r.rate with
    | none => simpa [AES67Discovery.extractSampleRateLoop, hc] using ih hrest
    | some q =>
      by_cases hz : q = 0
      · simpa [AES67Discovery.extractSampleRateLoop, hc, hz] using ih hrest
      · have := h r (List.mem_cons_self _ _) q hc
        simp only [AES67Discovery.extractSampleRateLoop, hc, hz, ne_eq,
          not_false_eq_true, if_true]
        omega

/-- If every `name` field present in the rtpmap list is `L16`, `L24` or
empty, the encoding loop returns `L16` or `L24`. -/
theorem extractEncodingLoop_mem (l : List AES67Discovery.Rtpmap)
    (h : ∀ r ∈ l, ∀ nm, r.name = some nm → nm = "L16" ∨ nm = "L24" ∨ nm = "") :
    AES67Discovery.extractEncodingLoop l = "L16" ∨
      AES67Discovery.extractEncodingLoop l = "L24" := by
  induction l with
  | nil => simp [AES67Discovery.extractEncodingLoop]
  | cons r rest ih =>
    have hrest : ∀ r ∈ rest, ∀ nm, r.name = some nm →
        nm = "L16" ∨ nm = "L24" ∨ nm = "" :=
      fun r hr => h r (List.mem_cons_of_mem _ hr)
    cases hc : r.name with
    | none => simpa [AES67Discovery.extractEncodingLoop, hc] using ih hrest
    | some nm =>
      by_cases hz : nm = ""
      · simpa [AES67Discovery.extractEncodingLoop, hc, hz] using ih hrest
      · rcases h r (List.mem_cons_self _ _) nm hc with h16 | h24 | hemp
        · simp [AES67Discovery.extractEncodingLoop, hc, hz, h16]
        · simp [AES67Discovery.extractEncodingLoop, hc, hz, h24]
        · exact absurd hemp hz

/-- Claim C9 (amended): the extraction helpers return the first truthy
rtpmap `channels`, `rate` and `name` values verbatim, so `channels ≥ 1`,
`sampleRate > 0` and `encoding ∈ {L16, L24}` hold exactly when the rtpmap
fields present are nonnegative and the names are `L16`/`L24` (or falsy);
absent attributes yield the defaults 2, 48000 and `L24`, which satisfy
the invariants. Values outside these sets are not replaced by the
defaults. -/
theorem C9_extraction_invariant (m : AES67Discovery.Media)
    (hch : ∀ r ∈ m.rtpmap.getD [], ∀ c, r.channels = some c → 0 ≤ c)
    (hra : ∀ r ∈ m.rtpmap.getD [], ∀ q, r.rate = some q → 0 ≤ q)
    (hnm : ∀ r ∈ m.rtpmap.getD [], ∀ nm, r.name = some nm →
      nm = "L16" ∨ nm = "L24" ∨ nm = "") :
    (1 ≤ AES67Discovery.extractChannels m ∧
      0 < AES67Discovery.extractSampleRate m ∧
      (AES67Discovery.extractEncoding m = "L16" ∨
        AES67Discovery.extractEncoding m = "L24")) ∧
    (m.rtpmap = none →
      AES67Discovery.extractChannels m = 2 ∧
      AES67Discovery.extractSampleRate m = 48000 ∧
      AES67Discovery.extractEncoding m = "L24") := by
  obtain ⟨rtpmap?⟩ := m
  cases rtpmap? with
  | none =>
    refine ⟨⟨?_, ?_, ?_⟩, fun _ => ⟨rfl, rfl, rfl⟩⟩ <;>
      simp [AES67Discovery.extractChannels, AES67Discovery.extractSampleRate,
        AES67Discovery.extractEncoding]
  | some l =>
    simp only [Option.getD_some] at hch hra hnm
    refine ⟨⟨?_, ?_, ?_⟩, fun hcontra => by simp at hcontra⟩
    · exact extractChannelsLoop_ge_one l hch
    · exact extractSampleRateLoop_pos l hra
    · exact extractEncodingLoop_mem l hnm

/-- Witness for C9 at a media section whose rtpmap carries channels 8,
rate 96000 and name `L16`. -/
theorem C9_extraction_invariant_witness :
    1 ≤ AES67Discovery.extractChannels ⟨some [⟨some 8, some 96000, some "L16"⟩]⟩ ∧
    0 < AES67Discovery.extractSampleRate ⟨some [⟨some 8, some 96000, some "L16"⟩]⟩ ∧
    (AES67Discovery.extractEncoding ⟨some [⟨some 8, some 96000, some "L16"⟩]⟩ = "L16" ∨
      AES67Discovery.extractEncoding ⟨some [⟨some 8, some 96000, some "L16"⟩]⟩ = "L24") := by
  refine (C9_extraction_invariant ⟨some [⟨some 8, some 96000, some "L16"⟩]⟩
    ?_ ?_ ?_).1
  · rintro r hr c hc
    simp only [Option.getD_some, List.mem_singleton] at hr
    subst hr
    simp only [Option.some.injEq] at hc
    omega
  · rintro r hr q hq
    simp only [Option.getD_some, List.mem_singleton] at hr
    subst hr
    simp only [Option.some.injEq] at hq
    omega
  · rintro r hr nm hnm
    simp only [Option.getD_some, List.mem_singleton] at hr
    subst hr
    simp only [Option.some.injEq] at hnm
    subst hnm
    left
    rfl

/-- Counterexample for C9 as stated: a media section with rtpmap channels
`-5`, rate `-100` and name `PCMU` is returned verbatim by the extraction
helpers; none of the three values is replaced by a default, violating all
three claimed invariants. -/
theorem C9_extraction_counterexample :
    AES67Discovery.extractChannels ⟨some [⟨some (-5), some (-100), some "PCMU"⟩]⟩ = -5 ∧
    AES67Discovery.extractSampleRate ⟨some [⟨some (-5), some (-100), some "PCMU"⟩]⟩ = -100 ∧
    AES67Discovery.extractEncoding ⟨some [⟨some (-5), some (-100), some "PCMU"⟩]⟩ = "PCMU" ∧
    ¬ 1 ≤ (-5 : Int) ∧ ¬ 0 < (-100 : Int) ∧
    ("PCMU" : String) ≠ "L16" ∧ ("PCMU" : String) ≠ "L24" := by
  decide

/-- Claim C6 (amended): registering two descriptors with the same
`(sourceIP, port)` key leaves exactly one entry for that key holding the
later descriptor's field values; a `stream-discovered` event fires only on
the first registration and only when that descriptor's status is active
(a `deleted` descriptor is still written but fires no event). The
function, however, reports nothing: its JS return value is `undefined`,
not the is-new flag. -/
theorem C6_register_upsert (i1 i2 : AES67Discovery.StreamInfo)
    (h1 : i1.sourceIP ≠ "") (h2 : i1.port ≠ 0)
    (hip : i2.sourceIP = i1.sourceIP) (hport : i2.port = i1.port) :
    (AES67Discovery.registerStream ⟨[], []⟩ i1).state.streams =
      [(AES67Discovery.streamKey i1, i1)] ∧
    (AES67Discovery.registerStream
        (AES67Discovery.registerStream ⟨[], []⟩ i1).state i2).state.streams =
      [(AES67Discovery.streamKey i1, i2)] ∧
    (AES67Discovery.registerStream ⟨[], []⟩ i1).events =
      (if i1.status = "active"
       then [AES67Discovery.DiscoveryEvent.streamDiscovered i1] else []) ∧
    (AES67Discovery.registerStream
        (AES67Discovery.registerStream ⟨[], []⟩ i1).state i2).events = [] ∧
    (AES67Discovery.registerStream ⟨[], []⟩ i1).ret = none := by
  have hkey : AES67Discovery.streamKey i2 = AES67Discovery.streamKey i1 := by
    simp [AES67Discovery.streamKey, hip, hport]
  have hg1 : ¬(i1.sourceIP = "" ∨ i1.port = 0) := by simp [h1, h2]
  have hg2 : ¬(i2.sourceIP = "" ∨ i2.port = 0) := by simp [hip, hport, h1, h2]
  refine ⟨?_, ?_, ?_, ?_, ?_⟩
  · simp [AES67Discovery.registerStream, hg1, AES67Discovery.mapSet]
  · simp [AES67Discovery.registerStream, hg1, hg2, AES67Discovery.mapSet, hkey]
  · simp only [AES67Discovery.registerStream, hg1, if_neg, ite_false,
      List.any_nil, Bool.not_false, Bool.true_and]
    by_cases hs : i1.status = "active"
    · simp [hs]
    · simp [hs]
  · simp [AES67Discovery.registerStream, hg1, hg2, AES67Discovery.mapSet, hkey]
  · simp [AES67Discovery.registerStream, hg1]

/-- Witness for C6: two concrete announcements for `10.0.0.1:5004` with
channels 2 then 8 leave one entry carrying channels 8, and only the first
fires the discovered event. -/
theorem C6_register_upsert_witness :
    (AES67Discovery.registerStream ⟨[], []⟩
        ⟨"A", "10.0.0.1", "239.69.1.1", 5004, 2, 48000, "L24", "active"⟩).state.streams =
      [(AES67Discovery.streamKey
          ⟨"A", "10.0.0.1", "239.69.1.1", 5004, 2, 48000, "L24", "active"⟩,
        ⟨"A", "10.0.0.1", "239.69.1.1", 5004, 2, 48000, "L24", "active"⟩)] ∧
    (AES67Discovery.registerStream
        (AES67Discovery.registerStream ⟨[], []⟩
          ⟨"A", "10.0.0.1", "239.69.1.1", 5004, 2, 48000, "L24", "active"⟩).state
        ⟨"A", "10.0.0.1", "239.69.1.1", 5004, 8, 48000, "L24", "active"⟩).state.streams =
      [(AES67Discovery.streamKey
          ⟨"A", "10.0.0.1", "239.69.1.1", 5004, 2, 48000, "L24", "active"⟩,
        ⟨"A", "10.0.0.1", "239.69.1.1", 5004, 8, 48000, "L24", "active"⟩)] ∧
    (AES67Discovery.registerStream ⟨[], []⟩
        ⟨"A", "10.0.0.1", "239.69.1.1", 5004, 2, 48000, "L24", "active"⟩).events =
      [AES67Discovery.DiscoveryEvent.streamDiscovered
        ⟨"A", "10.0.0.1", "239.69.1.1", 5004, 2, 48000, "L24", "active"⟩] ∧
    (AES67Discovery.registerStream
        (AES67Discovery.registerStream ⟨[], []⟩
          ⟨"A", "10.0.0.1", "239.69.1.1", 5004, 2, 48000, "L24", "active"⟩).state
        ⟨"A", "10.0.0.1", "239.69.1.1", 5004, 8, 48000, "L24", "active"⟩).events = [] := by
  have h := C6_register_upsert
    ⟨"A", "10.0.0.1", "239.69.1.1", 5004, 2, 48000, "L24", "active"⟩
    ⟨"A", "10.0.0.1", "239.69.1.1", 5004, 8, 48000, "L24", "active"⟩
    (by decide) (by decide) rfl rfl
  refine ⟨h.1, h.2.1, ?_, h.2.2.2.1⟩
  rw [h.2.2.1]
  rfl

/-- Counterexample for C6 as stated: `registerStream` does not report
whether the key was new; its return value is `undefined` (here `none`),
not the boolean `some true` the claim requires for a fresh key. -/
theorem C6_register_reports_nothing :
    (AES67Discovery.registerStream ⟨[], []⟩
        ⟨"A", "10.0.0.1", "239.69.1.1", 5004, 2, 48000, "L24", "active"⟩).ret ≠
      some true ∧
    (AES67Discovery.registerStream ⟨[], []⟩
        ⟨"A", "10.0.0.1", "239.69.1.1", 5004, 2, 48000, "L24", "active"⟩).ret =
      none := by
  decide

/-- Claim C5 (amended): the sender's SAP encoder emits the 8-byte header
(byte 0 `0x20` for announce and `0x24` for the deletion packet, byte 1
zero, bytes 4 to 7 the source octets), the full 16-byte payload-type tag
`application/sdp` plus null terminator at bytes 8 to 23, and the SDP text
from offset 24. The router's discovery encoder differs: it emits only
the first 8 tag bytes (`applicat`, no terminator) at bytes 8 to 15, with
the SDP text already at offset 16. -/
theorem C5_sap_encode_layout (sdpData : List Nat) (ip : IPv4) (msgIdHash : Nat) :
    (SAPAnnouncer.createSAPPacket sdpData ip msgIdHash).getD 0 0 = 32 ∧
    (SAPAnnouncer.createSAPPacket sdpData ip msgIdHash).getD 1 0 = 0 ∧
    List.take 4 (List.drop 4 (SAPAnnouncer.createSAPPacket sdpData ip msgIdHash)) =
      [ip.a, ip.b, ip.c, ip.d] ∧
    List.take 16 (List.drop 8 (SAPAnnouncer.createSAPPacket sdpData ip msgIdHash)) =
      applicationSdpTag ∧
    List.drop 24 (SAPAnnouncer.createSAPPacket sdpData ip msgIdHash) = sdpData ∧
    (SAPAnnouncer.sendDeletionPacket sdpData ip msgIdHash).getD 0 0 = 36 ∧
    List.take 16 (List.drop 8 (SAPAnnouncer.sendDeletionPacket sdpData ip msgIdHash)) =
      applicationSdpTag ∧
    List.drop 24 (SAPAnnouncer.sendDeletionPacket sdpData ip msgIdHash) = sdpData ∧
    (AES67Discovery.createSAPPacket sdpData ip).getD 0 0 = 32 ∧
    (AES67Discovery.createSAPPacket sdpData ip).getD 1 0 = 0 ∧
    List.take 8 (List.drop 8 (AES67Discovery.createSAPPacket sdpData ip)) =
      List.take 8 applicationSdpTag ∧
    List.drop 16 (AES67Discovery.createSAPPacket sdpData ip) = sdpData := by
  exact ⟨rfl, rfl, rfl, rfl, rfl, rfl, rfl, rfl, rfl, rfl, rfl, rfl⟩

/-- Counterexample for C5 as stated: the router's discovery SAP encoder
does not put the full 16-byte tag at bytes 8 to 23 nor the SDP text at
offset 24 (on the SDP bytes of `v=0` the packet is 19 bytes long, so
there is nothing at offset 24 at all and the text sits at offset 16). -/
theorem C5_discovery_encoder_truncates_tag :
    ¬ (List.take 16 (List.drop 8 (AES67Discovery.createSAPPacket [118, 61, 48]
          ⟨192, 168, 1, 10⟩)) = applicationSdpTag ∧
       List.drop 24 (AES67Discovery.createSAPPacket [118, 61, 48]
          ⟨192, 168, 1, 10⟩) = [118, 61, 48]) := by
  decide

/-- Claim C1 (amended): decoding an announce packet built by the sender's
SAP encoder recovers the source IP octets, the announce message type and
the exact SDP text, for every SDP text that starts with `v=0`, contains
no null byte, and does not contain the bytes `sdp` within its first 8
bytes when longer than 8 bytes (without that proviso the decoder's
payload-type skip misfires, see the counterexample). -/
theorem C1_sap_roundtrip (sdp : List Nat) (ip : IPv4) (msgIdHash : Nat)
    (hv : AES67Discovery.startsWithV0 sdp = true)
    (hnz : ∀ b ∈ sdp, b ≠ 0)
    (hskip : sdp.length ≤ 8 ∨
      AES67Discovery.containsSdpTag (List.take 8 sdp) = false) :
    AES67Discovery.handleSAPMessage (SAPAnnouncer.createSAPPacket sdp ip msgIdHash) =
      some ⟨ip, 0, sdp⟩ := by
  obtain ⟨a, b, c, d⟩ := ip
  have hpos : 1 ≤ sdp.length := by
    cases sdp with
    | nil => exact absurd hv (by decide)
    | cons x t => simp
  have hlen : (SAPAnnouncer.createSAPPacket sdp ⟨a, b, c, d⟩ msgIdHash).length =
      sdp.length + 24 := rfl
  have hget0 : (SAPAnnouncer.createSAPPacket sdp ⟨a, b, c, d⟩ msgIdHash).getD 0 0 =
      32 := rfl
  have hget1 : (SAPAnnouncer.createSAPPacket sdp ⟨a, b, c, d⟩ msgIdHash).getD 1 0 =
      0 := rfl
  have hget4 : (SAPAnnouncer.createSAPPacket sdp ⟨a, b, c, d⟩ msgIdHash).getD 4 0 =
      a := rfl
  have hget5 : (SAPAnnouncer.createSAPPacket sdp ⟨a, b, c, d⟩ msgIdHash).getD 5 0 =
      b := rfl
  have hget6 : (SAPAnnouncer.createSAPPacket sdp ⟨a, b, c, d⟩ msgIdHash).getD 6 0 =
      c := rfl
  have hget7 : (SAPAnnouncer.createSAPPacket sdp ⟨a, b, c, d⟩ msgIdHash).getD 7 0 =
      d := rfl
  have hscan : AES67Discovery.firstNonzeroPrefixLen
      ((SAPAnnouncer.createSAPPacket sdp ⟨a, b, c, d⟩ msgIdHash).drop 8) = 15 := rfl
  have hdrop24 : (SAPAnnouncer.createSAPPacket sdp ⟨a, b, c, d⟩ msgIdHash).drop 24 =
      sdp := rfl
  simp only [AES67Discovery.handleSAPMessage, hget0, hget1, hget4, hget5, hget6,
    hget7, hlen]
  norm_num
  rw [hscan]
  norm_num
  rw [hdrop24]
  have hC : ¬(23 < sdp.length + 15 ∧
      AES67Discovery.containsSdpTag (List.take 8 sdp) = true) := by
    rcases hskip with h8 | hfalse
    · rintro ⟨h1, _⟩
      omega
    · rintro ⟨_, h2⟩
      rw [hfalse] at h2
      exact Bool.false_ne_true h2
  rw [if_neg hC]
  refine ⟨by omega, by omega, ?_, ?_⟩
  · rw [hdrop24]
    exact hv
  · exact hdrop24

/-- Witness for C1: the packet for the 5-byte SDP text `v=0` CR LF from
source 10.0.0.1 decodes back to exactly that IP, the announce type and
the original text. -/
theorem C1_sap_roundtrip_witness :
    AES67Discovery.handleSAPMessage (SAPAnnouncer.createSAPPacket
        [118, 61, 48, 13, 10] ⟨10, 0, 0, 1⟩ 513) =
      some ⟨⟨10, 0, 0, 1⟩, 0, [118, 61, 48, 13, 10]⟩ :=
  C1_sap_roundtrip [118, 61, 48, 13, 10] ⟨10, 0, 0, 1⟩ 513 (by decide) (by decide)
    (Or.inl (by decide))

/-- Counterexample for C1 as stated: the 9-byte SDP text `v=0 sdpab`
starts with `v=0` and has no null byte, yet decoding its announce packet
fails (returns nothing) instead of recovering the text: the decoder
mistakes the first 8 payload bytes for a payload-type tag because they
contain `sdp`, skips them, and the rest no longer starts with `v=0`. -/
theorem C1_sap_roundtrip_counterexample :
    AES67Discovery.startsWithV0 [118, 61, 48, 32, 115, 100, 112, 97, 98] = true ∧
    (∀ b ∈ [118, 61, 48, 32, 115, 100, 112, 97, 98], b ≠ 0) ∧
    AES67Discovery.handleSAPMessage (SAPAnnouncer.createSAPPacket
        [118, 61, 48, 32, 115, 100, 112, 97, 98] ⟨192, 168, 1, 10⟩ 0) = none := by
  decide
